import Mathlib

set_option maxHeartbeats 1000000

namespace FilterSpec

/-- Calendar date-time value, as produced by `datetime.strptime` in
`type_cast.py` (year, month, day, hour, minute, second, microsecond). -/
structure DateTime where
  year : Nat
  month : Nat
  day : Nat
  hour : Nat
  minute : Nat
  second : Nat
  micro : Nat
deriving DecidableEq

/-- Python runtime values flowing through the filtering code: strings, ints,
bools, lists (also standing for tuples, which Django treats identically in
filter values), `None`, and parsed date-time objects. -/
inductive PyVal where
  | str (s : String)
  | int (n : Int)
  | bool (b : Bool)
  | list (xs : List PyVal)
  | none
  | datetime (d : DateTime)

mutual

/-- Structural equality on `PyVal`, mirroring Python `==` on these values. -/
def pyBeq : PyVal → PyVal → Bool
  | .str a, .str b => a == b
  | .int a, .int b => a == b
  | .bool a, .bool b => a == b
  | .none, .none => true
  | .datetime a, .datetime b => a == b
  | .list a, .list b => pyBeqList a b
  | _, _ => false

/-- Elementwise `pyBeq` on lists. -/
def pyBeqList : List PyVal → List PyVal → Bool
  | [], [] => true
  | x :: xs, y :: ys => pyBeq x y && pyBeqList xs ys
  | _, _ => false

end

instance : BEq PyVal := ⟨pyBeq⟩

mutual

/-- Model of Python `repr` for the values in scope (string quoting elides
escape handling, which the filtering code never depends on). -/
def pyRepr : PyVal → String
  | .str s => "'" ++ s ++ "'"
  | .int n => toString n
  | .bool b => if b then "True" else "False"
  | .none => "None"
  | .datetime _ => "datetime"
  | .list xs => "[" ++ String.intercalate ", " (pyReprList xs) ++ "]"

/-- `pyRepr` mapped over a list. -/
def pyReprList : List PyVal → List String
  | [] => []
  | x :: xs => pyRepr x :: pyReprList xs

end

/-- Model of Python `str(value)` for the values in scope. -/
def pyStr : PyVal → String
  | .str s => s
  | .int n => toString n
  | .bool b => if b then "True" else "False"
  | .none => "None"
  | .datetime _ => "datetime"
  | .list xs => "[" ++ String.intercalate ", " (pyReprList xs) ++ "]"

/-- ASCII lower-casing of one character (model of Python `str.lower` and of
SQL `LOWER`, restricted to ASCII, which is all the claims exercise). -/
def lowerChar (c : Char) : Char :=
  if 'A' ≤ c ∧ c ≤ 'Z' then Char.ofNat (c.toNat + 32) else c

/-- ASCII lower-casing of a string. -/
def lowerStr (s : String) : String := String.mk (s.data.map lowerChar)

/-- ASCII whitespace test (model of the characters `str.strip` removes). -/
def isSpaceChar (c : Char) : Bool :=
  c == ' ' || c == '\t' || c == '\n' || c == '\r'

/-- Model of Python `str.strip()`: drop leading and trailing whitespace. -/
def stripStr (s : String) : String :=
  String.mk (((s.data.dropWhile isSpaceChar).reverse.dropWhile isSpaceChar).reverse)

/-- Exceptions the filtering and casting code can raise: the typed
`UnsupportedFilterType` API error from `type_cast.py`, plus the builtin
Python exceptions that can escape (`TypeError`, `AttributeError`) and
Django's `FieldDoesNotExist`. -/
inductive PyError where
  | unsupportedFilterType (detail : String)
  | typeError (detail : String)
  | attributeError (detail : String)
  | fieldDoesNotExist
deriving DecidableEq

/-- Fold a list of decimal digit characters into a `Nat`; fails when the list
is empty or holds a non-digit. -/
def digitsToNat (cs : List Char) : Option Nat :=
  match cs with
  | [] => Option.none
  | _ =>
    if cs.all Char.isDigit then
      Option.some (cs.foldl (fun a c => a * 10 + (c.toNat - 48)) 0)
    else Option.none

/-- Model of Python `int(s)` on a string: strip surrounding whitespace, allow
one optional sign, then base-10 digits (digit-group underscores are not
modelled; the filtering code never relies on them). `Option.none` stands for
the `ValueError` that `int` raises on non-numeric text. -/
def pyIntOfString (s : String) : Option Int :=
  match (stripStr s).data with
  | '+' :: rest => (digitsToNat rest).map Int.ofNat
  | '-' :: rest => (digitsToNat rest).map (fun n => -(Int.ofNat n))
  | cs => (digitsToNat cs).map Int.ofNat

namespace Cast

/-- Model of `Cast.to_bool` (type_cast.py lines 18-25): native booleans pass
through; otherwise `str(value).lower()` must be one of
"true"/"false"/"1"/"0", and the result is membership in ("true", "1");
anything else raises `UnsupportedFilterType("Value is not boolean")`. -/
def to_bool (value : PyVal) : Except PyError PyVal :=
  match value with
  | .bool b => .ok (.bool b)
  | v =>
    if lowerStr (pyStr v) == "true" || lowerStr (pyStr v) == "false" ||
        lowerStr (pyStr v) == "1" || lowerStr (pyStr v) == "0" then
      .ok (.bool (lowerStr (pyStr v) == "true" || lowerStr (pyStr v) == "1"))
    else .error (.unsupportedFilterType "Value is not boolean")

/-- Model of `Cast.to_int` (type_cast.py lines 33-37): `int(self._value)`
guarded by `except ValueError` only. Ints and bools convert; a string
parses in base 10 or raises the typed error; `None` and lists make `int()`
raise `TypeError`, which the `except ValueError` clause does not catch, so
it escapes untyped. -/
def to_int (value : PyVal) : Except PyError PyVal :=
  match value with
  | .int n => .ok (.int n)
  | .bool b => .ok (.int (if b then 1 else 0))
  | .str s =>
    match pyIntOfString s with
    | Option.some n => .ok (.int n)
    | Option.none => .error (.unsupportedFilterType "Value is not a valid integer")
  | .datetime _ => .error (.typeError "int() argument cannot be a datetime")
  | .none => .error (.typeError "int() argument cannot be NoneType")
  | .list _ => .error (.typeError "int() argument cannot be a list")

end Cast

/-- Read exactly `k` decimal digits from the front of `cs`, returning the
value and the rest. -/
def readFixed (k : Nat) (cs : List Char) : Option (Nat × List Char) :=
  let pre := cs.take k
  if pre.length = k ∧ pre.all Char.isDigit then
    Option.some (pre.foldl (fun a c => a * 10 + (c.toNat - 48)) 0, cs.drop k)
  else Option.none

/-- Expect character `c` at the front of `cs`. -/
def expectChar (c : Char) (cs : List Char) : Option (List Char) :=
  match cs with
  | x :: rest => if x = c then Option.some rest else Option.none
  | [] => Option.none

/-- Parse `"%Y-%m-%dT%H:%M:%S.%fZ"`-shaped input: four-digit year, two-digit
month/day/hour/minute/second with the literal separators, then one to six
microsecond digits (zero-padded on the right, as `%f` does) and a literal
`Z`. Field ranges are checked coarsely (month 1-12, day 1-31, hour below 24,
minute/second below 60). -/
def strptimeDefault (s : String) : Option DateTime := do
  let cs := s.data
  let (y, cs) ← readFixed 4 cs
  let cs ← expectChar '-' cs
  let (mo, cs) ← readFixed 2 cs
  let cs ← expectChar '-' cs
  let (d, cs) ← readFixed 2 cs
  let cs ← expectChar 'T' cs
  let (h, cs) ← readFixed 2 cs
  let cs ← expectChar ':' cs
  let (mi, cs) ← readFixed 2 cs
  let cs ← expectChar ':' cs
  let (sec, cs) ← readFixed 2 cs
  let cs ← expectChar '.' cs
  let ds := cs.takeWhile Char.isDigit
  let cs := cs.dropWhile Char.isDigit
  if ds.length = 0 ∨ 6 < ds.length then Option.none else
  let f := (ds.foldl (fun a c => a * 10 + (c.toNat - 48)) 0) * 10 ^ (6 - ds.length)
  let cs ← expectChar 'Z' cs
  match cs with
  | [] =>
    if 1 ≤ mo ∧ mo ≤ 12 ∧ 1 ≤ d ∧ d ≤ 31 ∧ h < 24 ∧ mi < 60 ∧ sec < 60 then
      Option.some ⟨y, mo, d, h, mi, sec, f⟩
    else Option.none
  | _ => Option.none

/-- Model of the external `datetime.strptime`, restricted to the one format
string the repository uses (`FilterDateField.FORMAT`); other format strings
are modelled as parsing nothing, which no claim exercises. -/
def strptime (s fmt : String) : Option DateTime :=
  if fmt = "%Y-%m-%dT%H:%M:%S.%fZ" then strptimeDefault s else Option.none

namespace Cast

/-- Model of `Cast.to_date_time` (type_cast.py lines 27-31):
`datetime.strptime(value, format)` guarded by `except ValueError` only. A
string either parses or raises the typed error; a non-string argument makes
`strptime` raise `TypeError`, which escapes untyped. -/
def to_date_time (value : PyVal) (fmt : String) : Except PyError PyVal :=
  match value with
  | .str s =>
    match strptime s fmt with
    | Option.some d => .ok (.datetime d)
    | Option.none =>
      .error (.unsupportedFilterType "Value is not a valid date or has not appropriate format.")
  | _ => .error (.typeError "strptime() argument 1 must be str")

end Cast

/-- Django field lookups used by the filter handlers: the bare-field exact
lookup, `__iexact`, `__in`, `__gt`, `__gte`, `__lt`, `__lte`, `__isnull`,
`__icontains`, `__istartswith`, `__iendswith`, and `__exact`. -/
inductive Lookup where
  | exact
  | iexact
  | isin
  | gt
  | gte
  | lt
  | lte
  | isnull
  | icontains
  | istartswith
  | iendswith
deriving DecidableEq

/-- A filter condition: either a single `field__lookup=value` keyword (one
`Q` object), or a disjunction of two, as built by
`Q(...) | Q(...)` in `FilterCharField._is_empty`. -/
inductive Cond where
  | cnd (field : String) (lk : Lookup) (value : PyVal)
  | cor (a b : Cond)

/-- Derived-field expressions attached by `annotate`: Django
`Cast(field, DateField())`, `Cast(field, DateTimeField())`, and
`Lower(field)`. -/
inductive AnnExpr where
  | castDate (field : String)
  | castDateTime (field : String)
  | lowerOf (field : String)

/-- A Django queryset modelled as the query plan the filtering code builds:
the starting set plus chained `filter`, `exclude`, and `annotate` calls. -/
inductive QS where
  | base
  | filter (c : Cond) (q : QS)
  | exclude (c : Cond) (q : QS)
  | annotate (n : String) (e : AnnExpr) (q : QS)

/-- A database record: association list from field name to stored value
(`PyVal.none` models SQL NULL; a missing name also reads as NULL). -/
abbrev Rcd := List (String × PyVal)

/-- Read a field from a record. -/
def recGet (r : Rcd) (f : String) : PyVal :=
  match r.find? (fun p => p.1 == f) with
  | Option.some p => p.2
  | Option.none => PyVal.none

/-- Truncate a date-time to midnight, as `Cast(field, DateField())` does. -/
def dateOnly (d : DateTime) : DateTime :=
  { d with hour := 0, minute := 0, second := 0, micro := 0 }

/-- Evaluate an annotate expression on one record. -/
def AnnExpr.eval : AnnExpr → Rcd → PyVal
  | .castDate f, r =>
    match recGet r f with
    | .datetime d => .datetime (dateOnly d)
    | v => v
  | .castDateTime f, r => recGet r f
  | .lowerOf f, r =>
    match recGet r f with
    | .str s => .str (lowerStr s)
    | v => v

/-- Linear key for ordering date-times. -/
def DateTime.key (d : DateTime) : Nat :=
  ((((((d.year * 13 + d.month) * 32 + d.day) * 24 + d.hour) * 60 + d.minute) * 60
      + d.second) * 1000000 + d.micro)

/-- Strict order on stored values, defined on homogeneous ints, date-times
and strings; heterogeneous comparisons (which a SQL column never produces)
are false. -/
def pyLtB : PyVal → PyVal → Bool
  | .int a, .int b => decide (a < b)
  | .datetime a, .datetime b => decide (a.key < b.key)
  | .str a, .str b => decide (a < b)
  | _, _ => false

/-- Non-strict companion of `pyLtB`. -/
def pyLeB : PyVal → PyVal → Bool
  | .int a, .int b => decide (a ≤ b)
  | .datetime a, .datetime b => decide (a.key ≤ b.key)
  | .str a, .str b => decide (a ≤ b)
  | _, _ => false

/-- Substring test on character lists (needle occurs contiguously in hay). -/
def isSubList (needle : List Char) : List Char → Bool
  | [] => needle.isEmpty
  | c :: rest => needle.isPrefixOf (c :: rest) || isSubList needle rest

/-- Semantics of one Django lookup against a stored value. -/
def Lookup.eval (lk : Lookup) (stored value : PyVal) : Bool :=
  match lk with
  | .exact => pyBeq stored value
  | .iexact =>
    match stored, value with
    | .str a, .str b => lowerStr a == lowerStr b
    | a, b => pyBeq a b
  | .isin =>
    match value with
    | .list vs => vs.contains stored
    | v => pyBeq stored v
  | .gt => pyLtB value stored
  | .gte => pyLeB value stored
  | .lt => pyLtB stored value
  | .lte => pyLeB stored value
  | .isnull =>
    match value with
    | .bool b => (pyBeq stored PyVal.none) == b
    | _ => false
  | .icontains =>
    match stored, value with
    | .str a, .str b => isSubList (lowerStr b).data (lowerStr a).data
    | _, _ => false
  | .istartswith =>
    match stored, value with
    | .str a, .str b => (lowerStr b).data.isPrefixOf (lowerStr a).data
    | _, _ => false
  | .iendswith =>
    match stored, value with
    | .str a, .str b => (lowerStr b).data.isSuffixOf (lowerStr a).data
    | _, _ => false

/-- Evaluate a condition on one record. -/
def Cond.eval : Cond → Rcd → Bool
  | .cnd f lk v, r => lk.eval (recGet r f) v
  | .cor a b, r => a.eval r || b.eval r

/-- Run a query plan over a concrete table: `filter` keeps matching records,
`exclude` drops them, `annotate` attaches the derived field to every
record. -/
def QS.run : QS → List Rcd → List Rcd
  | .base, recs => recs
  | .filter c q, recs => (q.run recs).filter c.eval
  | .exclude c q, recs => (q.run recs).filter (fun r => !(c.eval r))
  | .annotate n e q, recs => (q.run recs).map (fun r => (n, e.eval r) :: r)

/-- The concrete `AbstractFilter` subclasses in filtering.py (string keys of
`Filter.FILTERS_MAP`). -/
inductive Variant where
  | booleanfield
  | charfield
  | textfield
  | integerfield
  | datefield
  | datetimefield
deriving DecidableEq

/-- Handlers and wrapped methods return the narrowed plan or a raised
exception. -/
abbrev Handler := String → PyVal → QS → Except PyError QS

namespace AF

/-- `AbstractFilter._eq`: `filter(**{field: value})`. -/
def eq (f : String) (v : PyVal) (q : QS) : QS := .filter (.cnd f .exact v) q

/-- `AbstractFilter._not`: `exclude(**{field: value})`. -/
def notOp (f : String) (v : PyVal) (q : QS) : QS := .exclude (.cnd f .exact v) q

/-- `AbstractFilter._in`: wrap a non-list/tuple value as a one-element tuple,
then `filter(**{field__in: value})`. -/
def inOp (f : String) (v : PyVal) (q : QS) : QS :=
  let v := match v with
    | .list xs => PyVal.list xs
    | x => PyVal.list [x]
  .filter (.cnd f .isin v) q

/-- `AbstractFilter._is_grater_than`: `filter(**{field__gt: value})`. -/
def is_grater_than (f : String) (v : PyVal) (q : QS) : QS :=
  .filter (.cnd f .gt v) q

/-- `AbstractFilter._is_grater_than_or_equal`: `filter(**{field__gte: value})`. -/
def is_grater_than_or_equal (f : String) (v : PyVal) (q : QS) : QS :=
  .filter (.cnd f .gte v) q

/-- `AbstractFilter._is_less_than`: `filter(**{field__lt: value})`. -/
def is_less_than (f : String) (v : PyVal) (q : QS) : QS :=
  .filter (.cnd f .lt v) q

/-- `AbstractFilter._is_less_than_or_equal`: `filter(**{field__lte: value})`. -/
def is_less_than_or_equal (f : String) (v : PyVal) (q : QS) : QS :=
  .filter (.cnd f .lte v) q

/-- `AbstractFilter._is_empty`: `filter(Q(**{field__isnull: True}))`. -/
def is_empty (f : String) (_v : PyVal) (q : QS) : QS :=
  .filter (.cnd f .isnull (.bool true)) q

/-- `AbstractFilter._is_not_empty`: `exclude(**{field__isnull: True})`. -/
def is_not_empty (f : String) (_v : PyVal) (q : QS) : QS :=
  .exclude (.cnd f .isnull (.bool true)) q

end AF

/-- Python `value.lower()`: lowers a string, raises `AttributeError` on
anything else. -/
def strLower : PyVal → Except PyError PyVal
  | .str s => .ok (.str (lowerStr s))
  | _ => .error (.attributeError "lower")

/-- Apply a fallible element operation across a list, propagating the first
exception (models a Python list comprehension over a casting call). -/
def mapExcept (f : PyVal → Except PyError PyVal) : List PyVal → Except PyError (List PyVal)
  | [] => .ok []
  | x :: xs =>
    match f x with
    | .error e => .error e
    | .ok y =>
      match mapExcept f xs with
      | .error e => .error e
      | .ok ys => .ok (y :: ys)

namespace CharF

/-- `FilterCharField._eq`: `filter(**{field__iexact: value})`. -/
def eq (f : String) (v : PyVal) (q : QS) : QS := .filter (.cnd f .iexact v) q

/-- `FilterCharField._not`: `exclude(**{field__iexact: value})`. -/
def notOp (f : String) (v : PyVal) (q : QS) : QS := .exclude (.cnd f .iexact v) q

/-- `FilterCharField._in`: wrap a scalar as a one-element tuple, lower-case
every member (`v.lower()` raises `AttributeError` on a non-string), annotate
`lower=Lower(field)` and `filter(lower__in=value)`. -/
def inOp (f : String) (v : PyVal) (q : QS) : Except PyError QS :=
  match mapExcept strLower (match v with | .list xs => xs | x => [x]) with
  | .ok ls =>
    .ok (.filter (.cnd "lower" .isin (.list ls)) (.annotate "lower" (.lowerOf f) q))
  | .error e => .error e

/-- `FilterCharField._contains`: `filter(**{field__icontains: value})`. -/
def contains (f : String) (v : PyVal) (q : QS) : QS :=
  .filter (.cnd f .icontains v) q

/-- `FilterCharField._does_not_contain`: `exclude(**{field__icontains: value})`. -/
def does_not_contain (f : String) (v : PyVal) (q : QS) : QS :=
  .exclude (.cnd f .icontains v) q

/-- `FilterCharField._starts_with`: `filter(**{field__istartswith: value})`. -/
def starts_with (f : String) (v : PyVal) (q : QS) : QS :=
  .filter (.cnd f .istartswith v) q

/-- `FilterCharField._ends_with`: `filter(**{field__iendswith: value})`. -/
def ends_with (f : String) (v : PyVal) (q : QS) : QS :=
  .filter (.cnd f .iendswith v) q

/-- `FilterCharField._is_empty`:
`filter(Q(**{field__isnull: True}) | Q(**{field__exact: ""}))`. -/
def is_empty (f : String) (_v : PyVal) (q : QS) : QS :=
  .filter (.cor (.cnd f .isnull (.bool true)) (.cnd f .exact (.str ""))) q

/-- `FilterCharField._is_not_empty`:
`exclude(**{field__isnull: True}).exclude(**{field__exact: ""})`. -/
def is_not_empty (f : String) (_v : PyVal) (q : QS) : QS :=
  .exclude (.cnd f .exact (.str "")) (.exclude (.cnd f .isnull (.bool true)) q)

end CharF

/-- `OPERATORS_MAP` of each class, as association lists.
`FilterBooleanField` inherits the empty map of `AbstractFilter`;
`FilterTextField` inherits `FilterCharField`'s; `FilterDateTimeField`
inherits `FilterDateField`'s. Entries are verbatim from filtering.py,
including the `">=" -> "_is_grater_than_or_equal"` entry of
`FilterIntegerField` with its leading underscore. -/
def opMapPairs : Variant → List (String × String)
  | .booleanfield => []
  | .charfield | .textfield =>
    [("contains", "contains"), ("startsWith", "starts_with"),
     ("endsWith", "ends_with"), ("in", "in"), ("isAnyOf", "in"),
     ("not", "not"), ("isEmpty", "is_empty"), ("isNotEmpty", "is_not_empty"),
     ("doesNotEqual", "not"), ("doesNotContain", "does_not_contain")]
  | .integerfield =>
    [("!=", "not"), ("in", "in"), (">", "is_grater_than"),
     (">=", "_is_grater_than_or_equal"), ("<", "is_less_than"),
     ("<=", "is_less_than_or_equal"), ("isEmpty", "is_empty"),
     ("isNotEmpty", "is_not_empty"), ("isAnyOf", "in")]
  | .datefield | .datetimefield =>
    [("not", "not"), ("in", "in"), ("after", "is_grater_than"),
     ("onOrAfter", "is_grater_than_or_equal"), ("before", "is_less_than"),
     ("onOrBefore", "is_less_than_or_equal"), ("isEmpty", "is_empty"),
     ("isNotEmpty", "is_not_empty")]

/-- `OPERATORS_MAP.get(operator)`. -/
def opMapGet (v : Variant) (op : String) : Option String :=
  ((opMapPairs v).find? (fun p => p.1 == op)).map Prod.snd

/-- Underscore-prefixed attributes `AbstractFilter` instances expose (its
methods and the `_queryset` instance attribute); this is the attribute set
`hasattr(self, f"_\x7boperator\x7d")` can hit. Dunder attributes inherited
from `object` are not part of the source and are not modelled. -/
def baseAttrs : List String :=
  ["_queryset", "_cast", "_normalize_value", "_map_operator",
   "_resolve_field_name", "_eq", "_not", "_in", "_is_grater_than",
   "_is_grater_than_or_equal", "_is_less_than", "_is_less_than_or_equal",
   "_is_empty", "_is_not_empty"]

/-- Underscore-prefixed attributes of each concrete class:
`FilterCharField`/`FilterTextField` add the four text handlers, the date
classes add `_cast_field_and_annotate`. -/
def classAttrs : Variant → List String
  | .charfield | .textfield =>
    baseAttrs ++ ["_contains", "_does_not_contain", "_starts_with", "_ends_with"]
  | .datefield | .datetimefield => baseAttrs ++ ["_cast_field_and_annotate"]
  | .booleanfield | .integerfield => baseAttrs

/-- `hasattr(self, name)` over the modelled attribute set. -/
def hasattr (v : Variant) (name : String) : Bool := (classAttrs v).contains name

/-- `AbstractFilter._map_operator` (filtering.py lines 31-34): if the
instance has an attribute literally named `_operator`, keep the raw
operator; otherwise look the operator up in `OPERATORS_MAP`, defaulting to
`"eq"`. -/
def map_operator (v : Variant) (op : String) : String :=
  if hasattr v ("_" ++ op) then op
  else (opMapGet v op).getD "eq"

/-- `ANNOTATION_NAME` of each class (only the date classes set it). -/
def annotationName : Variant → String
  | .datefield | .datetimefield => "df"
  | _ => ""

/-- `AbstractFilter._resolve_field_name`: `self.ANNOTATION_NAME or field`
(Python `or` takes the field when the annotation name is the empty,
falsy, string). -/
def resolve_field_name (v : Variant) (field : String) : String :=
  if annotationName v = "" then field else annotationName v

/-- `AbstractFilter._normalize_value`: identity. -/
def normalize_value (_v : Variant) (value : PyVal) : PyVal := value

/-- `FilterDateField.FORMAT` (shared verbatim by `FilterDateTimeField`). -/
def FORMAT : String := "%Y-%m-%dT%H:%M:%S.%fZ"

/-- The `_cast` method of each class. Boolean: reject values that are not
bool/int/str, else `Cast(value).to_bool()`. Char/text: `str` every element
of a list, else `str` the value. Integer: `Cast(v).to_int()` over a list or
the scalar. Date/date-time: `Cast(v).to_date_time(format)` likewise. -/
def castValue (v : Variant) (value : PyVal) (fmt : String) : Except PyError PyVal :=
  match v with
  | .booleanfield =>
    match value with
    | .bool _ | .int _ | .str _ => Cast.to_bool value
    | _ => .error (.unsupportedFilterType "Value must be a boolean")
  | .charfield | .textfield =>
    match value with
    | .list xs => .ok (.list (xs.map (fun x => PyVal.str (pyStr x))))
    | x => .ok (.str (pyStr x))
  | .integerfield =>
    match value with
    | .list xs => (mapExcept Cast.to_int xs).map PyVal.list
    | x => Cast.to_int x
  | .datefield | .datetimefield =>
    match value with
    | .list xs => (mapExcept (fun x => Cast.to_date_time x fmt) xs).map PyVal.list
    | x => Cast.to_date_time x fmt

/-- Turn a plan-returning handler into a `Handler` (a Python method whose
body cannot raise). -/
def wrap (h : String → PyVal → QS → QS) : Handler := fun f v q => .ok (h f v q)

/-- Callable operator handlers of `AbstractFilter` (inherited unchanged by
the boolean, integer and date classes), keyed by method name. -/
def baseHandlers : List (String × Handler) :=
  [("_eq", wrap AF.eq), ("_not", wrap AF.notOp), ("_in", wrap AF.inOp),
   ("_is_grater_than", wrap AF.is_grater_than),
   ("_is_grater_than_or_equal", wrap AF.is_grater_than_or_equal),
   ("_is_less_than", wrap AF.is_less_than),
   ("_is_less_than_or_equal", wrap AF.is_less_than_or_equal),
   ("_is_empty", wrap AF.is_empty), ("_is_not_empty", wrap AF.is_not_empty)]

/-- Callable operator handlers of `FilterCharField` (and `FilterTextField`):
the base set with the overridden `_eq`, `_not`, `_in`, `_is_empty`,
`_is_not_empty` and the four added text handlers. -/
def charHandlers : List (String × Handler) :=
  [("_eq", wrap CharF.eq), ("_not", wrap CharF.notOp), ("_in", CharF.inOp),
   ("_contains", wrap CharF.contains),
   ("_does_not_contain", wrap CharF.does_not_contain),
   ("_starts_with", wrap CharF.starts_with),
   ("_ends_with", wrap CharF.ends_with),
   ("_is_grater_than", wrap AF.is_grater_than),
   ("_is_grater_than_or_equal", wrap AF.is_grater_than_or_equal),
   ("_is_less_than", wrap AF.is_less_than),
   ("_is_less_than_or_equal", wrap AF.is_less_than_or_equal),
   ("_is_empty", wrap CharF.is_empty),
   ("_is_not_empty", wrap CharF.is_not_empty)]

/-- Handler table of each class. -/
def handlersOf : Variant → List (String × Handler)
  | .charfield | .textfield => charHandlers
  | _ => baseHandlers

/-- Look up a callable operator handler by method name. -/
def getHandler (v : Variant) (name : String) : Option Handler :=
  ((handlersOf v).find? (fun p => p.1 == name)).map Prod.snd

/-- `getattr(self, name)(field, value, **kwargs)`: a found handler runs; a
found non-handler attribute is not callable with this signature
(`TypeError`); a missing attribute raises `AttributeError(name)`. -/
def callMethod (v : Variant) (name : String) (field : String) (value : PyVal)
    (q : QS) : Except PyError QS :=
  match getHandler v name with
  | Option.some h => h field value q
  | Option.none =>
    if hasattr v name then .error (.typeError name)
    else .error (.attributeError name)

/-- `AbstractFilter.query_filter` (filtering.py lines 40-44), used by the
boolean, char, text and integer classes: cast the value unless the raw
operator is `isEmpty`/`isNotEmpty`, normalize it, map the operator, then
dispatch on `getattr(self, f"_\x7boperator\x7d")` with the resolved field
name. -/
def queryFilterBase (v : Variant) (field : String) (value : PyVal) (op : String)
    (fmt : String) (q : QS) : Except PyError QS :=
  match (if op = "isEmpty" ∨ op = "isNotEmpty" then Except.ok value
         else castValue v value fmt) with
  | .error e => .error e
  | .ok value2 =>
    callMethod v ("_" ++ map_operator v op) (resolve_field_name v field)
      (normalize_value v value2) q

/-- `_cast_field_and_annotate` of the date classes: the annotation keyword
dict `{ANNOTATION_NAME: Cast(field, DateField())}` for `FilterDateField`,
`{"df": Cast(field, DateTimeField())}` for `FilterDateTimeField`. -/
def cast_field_and_annotate : Variant → String → String × AnnExpr
  | .datetimefield, field => ("df", .castDateTime field)
  | v, field => (annotationName v, .castDate field)

/-- `FilterDateField.query_filter` (filtering.py lines 173-183, inherited by
`FilterDateTimeField`): build the annotation dict, cast the value with the
`format` kwarg defaulting to `FORMAT` unless the operator is
`isEmpty`/`isNotEmpty`, map the operator, annotate the queryset, then
dispatch with the resolved (annotated) field name. -/
def queryFilterDate (v : Variant) (field : String) (value : PyVal) (op : String)
    (fmt : Option String) (q : QS) : Except PyError QS :=
  match (if op = "isEmpty" ∨ op = "isNotEmpty" then Except.ok value
         else castValue v value (fmt.getD FORMAT)) with
  | .error e => .error e
  | .ok value2 =>
    callMethod v ("_" ++ map_operator v op) (resolve_field_name v field)
      value2
      (QS.annotate (cast_field_and_annotate v field).1
        (cast_field_and_annotate v field).2 q)

/-- `query_filter` of a class instance: the date classes use the
`FilterDateField` override, every other class the `AbstractFilter` body
(which ignores the `format` kwarg). -/
def query_filter (v : Variant) (field : String) (value : PyVal) (op : String)
    (fmt : Option String) (q : QS) : Except PyError QS :=
  match v with
  | .datefield | .datetimefield => queryFilterDate v field value op fmt q
  | _ => queryFilterBase v field value op (fmt.getD FORMAT) q

/-- Success test for a raised-or-returned result. -/
def isOkE : Except PyError QS → Bool
  | .ok _ => true
  | .error _ => false

/-- What `Filter.FILTERS_MAP.get(field, field)` yields: either the field
name unchanged, or one of the six filter classes when the name collides
with a map key. -/
inductive FieldOrClass where
  | fld (s : String)
  | cls (v : Variant)

/-- `Filter.FILTERS_MAP.get(field, field)` (filtering.py lines 217-224,
245). -/
def filtersMapGet (field : String) : FieldOrClass :=
  if field = "integerfield" then .cls .integerfield
  else if field = "datetimefield" then .cls .datetimefield
  else if field = "datefield" then .cls .datefield
  else if field = "booleanfield" then .cls .booleanfield
  else if field = "charfield" then .cls .charfield
  else if field = "textfield" then .cls .textfield
  else .fld field

/-- `CUSTOM_FIELDS.get(field)` over an association list (the base class
ships an empty dict; subclasses may redefine it, so it is a parameter
here). -/
def customGet (custom : List (String × String)) (field : String) : Option String :=
  (custom.find? (fun p => p.1 == field)).map Prod.snd

/-- Python truthiness of `CUSTOM_FIELDS.get(field)`: a present, non-empty
mapped string. -/
def customTruthy (custom : List (String × String)) (field : String) : Bool :=
  match customGet custom field with
  | Option.some t => !(t == "")
  | Option.none => false

/-- The model schema: declared fields with their internal type names, as
`model._meta` exposes them. -/
structure Schema where
  fields : List (String × String)

/-- Locate a declared field. -/
def schemaFind (s : Schema) (f : String) : Option (String × String) :=
  s.fields.find? (fun p => p.1 == f)

/-- `model._meta.get_field(field).name`: the canonical name, or the raised
`FieldDoesNotExist`. Passing a class object (a possible output of the
`FILTERS_MAP` step) is not a declared field name either. -/
def schemaGetFieldName (s : Schema) (f : FieldOrClass) : Except PyError String :=
  match f with
  | .cls _ => .error .fieldDoesNotExist
  | .fld name =>
    match schemaFind s name with
    | Option.some p => .ok p.1
    | Option.none => .error .fieldDoesNotExist

/-- `model._meta.get_field(field).get_internal_type()`. -/
def schemaInternalType (s : Schema) (f : String) : Except PyError String :=
  match schemaFind s f with
  | Option.some p => .ok p.2
  | Option.none => .error .fieldDoesNotExist

/-- `Filter._map_fields` (filtering.py lines 244-247): pass the name through
`FILTERS_MAP.get`, keep it if `CUSTOM_FIELDS.get` is truthy for it, else ask
the schema for the canonical name. -/
def map_fields (custom : List (String × String)) (schema : Schema)
    (field : String) : Except PyError String :=
  match filtersMapGet field with
  | .cls v => schemaGetFieldName schema (.cls v)
  | .fld s => if customTruthy custom s then .ok s else schemaGetFieldName schema (.fld s)

/-- `Filter._map_type` (filtering.py lines 249-250):
`CUSTOM_FIELDS.get(field) or get_field(field).get_internal_type()` on the
original field name (Python `or` falls through on a falsy, empty-string,
custom type). -/
def map_type (custom : List (String × String)) (schema : Schema)
    (field : String) : Except PyError String :=
  match customGet custom field with
  | Option.some t => if t == "" then schemaInternalType schema field else .ok t
  | Option.none => schemaInternalType schema field

/-- `"".join(field.split("_")).lower()`: drop underscores, lower-case. -/
def fieldNameNorm (field : String) : String :=
  lowerStr (String.mk (field.data.filter (fun c => !(c == '_'))))

/-- The state `Filter.__init__` stores on success: `_field`, `_type`,
`_field_name`. -/
structure FilterState where
  field : String
  type : String
  field_name : String
deriving DecidableEq

/-- `Filter.__init__` (filtering.py lines 232-242): resolve `_field`,
`_type` and `_field_name`; a `FieldDoesNotExist` escaping either lookup is
caught and re-raised as `UnsupportedFilterType("Field does not exist")`.
The value and operator are only stored, never inspected, so castability is
irrelevant here. -/
def filterInit (custom : List (String × String)) (schema : Schema)
    (field : String) : Except PyError FilterState :=
  let r : Except PyError FilterState :=
    match map_fields custom schema field with
    | .error e => .error e
    | .ok f =>
      match map_type custom schema field with
      | .error e => .error e
      | .ok t => .ok ⟨f, t, fieldNameNorm field⟩
  match r with
  | .error .fieldDoesNotExist => .error (.unsupportedFilterType "Field does not exist")
  | x => x

/-- One entry of the `filters` iterable consumed by
`Filter.filter_multiple`: the popped `field`, `value`, `operator`
(defaulting to `""`), and the only remaining kwarg the code reads, an
optional `format`. -/
structure Descriptor where
  field : String
  value : PyVal
  op : String
  fmt : Option String

/-- `Filter.filter_multiple` (filtering.py lines 256-266): thread the
queryset through each descriptor, stripping string values, constructing the
dispatcher (which may raise), then applying the subclass `query_filter`
(abstract in the source, hence a parameter `ap`). -/
def filterMultiple (ap : FilterState → PyVal → String → Option String → QS → Except PyError QS)
    (custom : List (String × String)) (schema : Schema)
    (q : QS) : List Descriptor → Except PyError QS
  | [] => .ok q
  | d :: rest =>
    let value := match d.value with
      | .str s => PyVal.str (stripStr s)
      | v => v
    match filterInit custom schema d.field with
    | .error e => .error e
    | .ok st =>
      match ap st value d.op d.fmt q with
      | .error e => .error e
      | .ok q2 => filterMultiple ap custom schema q2 rest

/-- Scalar-vs-list test mirroring `isinstance(value, (list, tuple))`. -/
def isListVal : PyVal → Bool
  | .list _ => true
  | _ => false

/-- Unfolding of `Cast.to_bool` on a value that is not a native boolean. -/
theorem to_bool_nonbool (v : PyVal) (h : ∀ b : Bool, v ≠ PyVal.bool b) :
    Cast.to_bool v =
      if lowerStr (pyStr v) == "true" || lowerStr (pyStr v) == "false" ||
          lowerStr (pyStr v) == "1" || lowerStr (pyStr v) == "0" then
        .ok (.bool (lowerStr (pyStr v) == "true" || lowerStr (pyStr v) == "1"))
      else .error (.unsupportedFilterType "Value is not boolean") := by
  cases v <;> first | rfl | exact absurd rfl (h _)

/-- C1: for every field-filter variant and every raw value, `query_filter`
with raw operator `isEmpty` or `isNotEmpty` skips the value cast, so it
returns a narrowed queryset (no cast error, nor any other exception) even
when the value is uncastable for the variant's type. -/
theorem claim_C1 (v : Variant) (field : String) (value : PyVal)
    (fmt : Option String) (q : QS) :
    isOkE (query_filter v field value "isEmpty" fmt q) = true ∧
    isOkE (query_filter v field value "isNotEmpty" fmt q) = true := by
  cases v <;> exact ⟨rfl, rfl⟩

/-- C2: operator resolution is two-tier: an attribute literally named
`_operator` keeps the raw operator; otherwise the variant's
`OPERATORS_MAP` entry is used; an operator known to neither resolves to the
default `"eq"` instead of raising. -/
theorem claim_C2 (v : Variant) (op : String) :
    (hasattr v ("_" ++ op) = true → map_operator v op = op) ∧
    (hasattr v ("_" ++ op) = false →
      ∀ t, opMapGet v op = Option.some t → map_operator v op = t) ∧
    (hasattr v ("_" ++ op) = false → opMapGet v op = Option.none →
      map_operator v op = "eq") := by
  refine ⟨fun h => ?_, fun h t ht => ?_, fun h hn => ?_⟩
  · simp [map_operator, h]
  · simp [map_operator, h, ht]
  · simp [map_operator, h, hn]

/-- Witness for C2: the char filter's `_contains` attribute wins tier one;
`isAnyOf` falls to the integer map entry; an unknown operator falls through
to `"eq"`. -/
theorem claim_C2_witness :
    map_operator .charfield "contains" = "contains" ∧
    map_operator .integerfield "isAnyOf" = "in" ∧
    map_operator .integerfield "unknownOperator" = "eq" :=
  ⟨(claim_C2 .charfield "contains").1 rfl,
   (claim_C2 .integerfield "isAnyOf").2.1 rfl "in" rfl,
   (claim_C2 .integerfield "unknownOperator").2.2 rfl rfl⟩

/-- C4: `to_bool` passes native booleans through unchanged; otherwise it
lower-cases the string form of the value and maps exactly
"true"/"1" to true and "false"/"0" to false; any other value raises the
typed "Value is not boolean" error. -/
theorem claim_C4 :
    (∀ b : Bool, Cast.to_bool (.bool b) = .ok (.bool b)) ∧
    (∀ v : PyVal, (∀ b : Bool, v ≠ PyVal.bool b) →
      (lowerStr (pyStr v) = "true" ∨ lowerStr (pyStr v) = "1" →
        Cast.to_bool v = .ok (.bool true)) ∧
      (lowerStr (pyStr v) = "false" ∨ lowerStr (pyStr v) = "0" →
        Cast.to_bool v = .ok (.bool false)) ∧
      (lowerStr (pyStr v) ≠ "true" → lowerStr (pyStr v) ≠ "false" →
       lowerStr (pyStr v) ≠ "1" → lowerStr (pyStr v) ≠ "0" →
        Cast.to_bool v =
          .error (.unsupportedFilterType "Value is not boolean"))) := by
  refine ⟨fun b => rfl, fun v hv => ⟨fun h => ?_, fun h => ?_, fun h1 h2 h3 h4 => ?_⟩⟩
  · rcases h with h | h <;> rw [to_bool_nonbool v hv, h] <;> rfl
  · rcases h with h | h <;> rw [to_bool_nonbool v hv, h] <;> rfl
  · have e1 : (lowerStr (pyStr v) == "true") = false := beq_eq_false_iff_ne.mpr h1
    have e2 : (lowerStr (pyStr v) == "false") = false := beq_eq_false_iff_ne.mpr h2
    have e3 : (lowerStr (pyStr v) == "1") = false := beq_eq_false_iff_ne.mpr h3
    have e4 : (lowerStr (pyStr v) == "0") = false := beq_eq_false_iff_ne.mpr h4
    rw [to_bool_nonbool v hv, e1, e2, e3, e4]
    rfl

/-- Witness for C4: a mixed-case boolean string, the digit forms, the
integer 1 via its string form, and a rejected token. -/
theorem claim_C4_witness :
    Cast.to_bool (.str "TRUE") = .ok (.bool true) ∧
    Cast.to_bool (.int 1) = .ok (.bool true) ∧
    Cast.to_bool (.str "0") = .ok (.bool false) ∧
    Cast.to_bool (.str "yes") =
      .error (.unsupportedFilterType "Value is not boolean") :=
  ⟨(claim_C4.2 (.str "TRUE") (fun _ h => PyVal.noConfusion h)).1 (Or.inl rfl),
   (claim_C4.2 (.int 1) (fun _ h => PyVal.noConfusion h)).1 (Or.inr rfl),
   (claim_C4.2 (.str "0") (fun _ h => PyVal.noConfusion h)).2.1 (Or.inr rfl),
   (claim_C4.2 (.str "yes") (fun _ h => PyVal.noConfusion h)).2.2
     (by decide) (by decide) (by decide) (by decide)⟩

/-- C6: for every variant, dispatching the `_in` handler on a scalar value
builds the same narrowed queryset as dispatching it on the one-element list
holding that value (the handler wraps scalars itself). -/
theorem claim_C6 (v : Variant) (field : String) (value : PyVal) (q : QS)
    (h : isListVal value = false) :
    callMethod v "_in" field value q =
      callMethod v "_in" field (.list [value]) q := by
  cases value <;> simp [isListVal] at h <;> cases v <;> rfl

/-- Witness for C6: the integer filter's inherited `_in` on the scalar 3. -/
theorem claim_C6_witness :
    callMethod .integerfield "_in" "age" (.int 3) .base =
      callMethod .integerfield "_in" "age" (.list [.int 3]) .base :=
  claim_C6 .integerfield "age" (.int 3) .base rfl

/-- C9 counterexample: at raw input `None` (not parseable as a base-10
integer), `to_int` does not raise the typed "Value is not a valid integer"
error; `int(None)` raises `TypeError`, which the `except ValueError` clause
lets escape. -/
theorem claim_C9_counterexample :
    Cast.to_int PyVal.none =
      .error (.typeError "int() argument cannot be NoneType") ∧
    Cast.to_int PyVal.none ≠
      .error (.unsupportedFilterType "Value is not a valid integer") :=
  ⟨rfl, fun h => PyError.noConfusion (Except.error.inj h)⟩

/-- C9 (amended): every string input that does not parse as a base-10
integer makes `to_int` fail with the typed "Value is not a valid integer"
error, but inputs of non-convertible type (`None`, a list) escape with an
untyped `TypeError` instead. -/
theorem claim_C9 (s : String) (h : pyIntOfString s = Option.none) :
    Cast.to_int (.str s) =
      .error (.unsupportedFilterType "Value is not a valid integer") ∧
    Cast.to_int PyVal.none =
      .error (.typeError "int() argument cannot be NoneType") ∧
    (∀ xs : List PyVal,
      Cast.to_int (.list xs) =
        .error (.typeError "int() argument cannot be a list")) := by
  refine ⟨?_, rfl, fun xs => rfl⟩
  simp [Cast.to_int, h]

/-- Witness for C9: the non-numeric string "abc". -/
theorem claim_C9_witness :
    Cast.to_int (.str "abc") =
      .error (.unsupportedFilterType "Value is not a valid integer") :=
  (claim_C9 "abc" rfl).1

/-- Replacing a filter predicate by a pointwise-equal one leaves one
filtering step of a run unchanged. -/
theorem run_filter_eq (c : Cond) (q : QS) (recs : List Rcd)
    (p : Rcd → Bool) (h : ∀ r, Cond.eval c r = p r) :
    QS.run (.filter c q) recs = (QS.run q recs).filter p := by
  show (QS.run q recs).filter c.eval = (QS.run q recs).filter p
  rw [show Cond.eval c = p from funext h]

/-- Two conditions with pointwise-equal semantics filter identically. -/
theorem run_filter_congr (c₁ c₂ : Cond) (q : QS) (recs : List Rcd)
    (h : ∀ r, Cond.eval c₁ r = Cond.eval c₂ r) :
    QS.run (.filter c₁ q) recs = QS.run (.filter c₂ q) recs := by
  show (QS.run q recs).filter c₁.eval = (QS.run q recs).filter c₂.eval
  rw [show Cond.eval c₁ = Cond.eval c₂ from funext h]

/-- Two conditions with pointwise-equal semantics exclude identically. -/
theorem run_exclude_congr (c₁ c₂ : Cond) (q : QS) (recs : List Rcd)
    (h : ∀ r, Cond.eval c₁ r = Cond.eval c₂ r) :
    QS.run (.exclude c₁ q) recs = QS.run (.exclude c₂ q) recs := by
  show (QS.run q recs).filter (fun r => !(c₁.eval r)) =
    (QS.run q recs).filter (fun r => !(c₂.eval r))
  rw [show Cond.eval c₁ = Cond.eval c₂ from funext h]

/-- C3: on the integer filter, the raw operators `>`, `<` and `<=` resolve
to the matching comparison handlers and keep exactly the records whose
field stands in that order relation to the cast value; but `>=`, whose
`OPERATORS_MAP` entry carries a stray leading underscore, makes the
dispatch look up the nonexistent method `__is_grater_than_or_equal` and
raise `AttributeError` instead of running a greater-or-equal
comparison. -/
theorem claim_C3 (field : String) (n : Int) (q : QS) (recs : List Rcd) :
    (∃ q₁, query_filter .integerfield field (.int n) ">" Option.none q = .ok q₁ ∧
      QS.run q₁ recs = (QS.run q recs).filter
        (fun r => match recGet r field with
          | .int k => decide (n < k)
          | _ => false)) ∧
    (∃ q₂, query_filter .integerfield field (.int n) "<" Option.none q = .ok q₂ ∧
      QS.run q₂ recs = (QS.run q recs).filter
        (fun r => match recGet r field with
          | .int k => decide (k < n)
          | _ => false)) ∧
    (∃ q₃, query_filter .integerfield field (.int n) "<=" Option.none q = .ok q₃ ∧
      QS.run q₃ recs = (QS.run q recs).filter
        (fun r => match recGet r field with
          | .int k => decide (k ≤ n)
          | _ => false)) ∧
    query_filter .integerfield field (.int n) ">=" Option.none q =
      .error (.attributeError "__is_grater_than_or_equal") := by
  refine ⟨⟨_, rfl, ?_⟩, ⟨_, rfl, ?_⟩, ⟨_, rfl, ?_⟩, rfl⟩ <;>
  · apply run_filter_eq
    intro r
    show Lookup.eval _ (recGet r field) (.int n) = _
    generalize recGet r field = x
    cases x <;> rfl

/-- Every field name the `FILTERS_MAP` step leaves as a plain string it
leaves unchanged. -/
theorem filtersMapGet_fld (f s : String) (h : filtersMapGet f = .fld s) :
    s = f := by
  unfold filtersMapGet at h
  split_ifs at h
  all_goals
    first
      | exact FieldOrClass.noConfusion h
      | exact (FieldOrClass.fld.inj h).symm

/-- C7: a field name absent from both the custom-field table and the schema
makes `Filter.__init__` raise the typed "Field does not exist" error (the
raw `FieldDoesNotExist` never leaks), independent of the value (so before
any cast can run), and `filter_multiple` on a descriptor list starting with
such a field aborts with that error whatever the subclass `query_filter`
would do, applying zero filters. -/
theorem claim_C7 (custom : List (String × String)) (schema : Schema)
    (field : String)
    (hc : customGet custom field = Option.none)
    (hs : schemaFind schema field = Option.none) :
    filterInit custom schema field =
      .error (.unsupportedFilterType "Field does not exist") ∧
    (∀ (ap : FilterState → PyVal → String → Option String → QS → Except PyError QS)
       (value : PyVal) (op : String) (fmt : Option String) (q : QS)
       (rest : List Descriptor),
      filterMultiple ap custom schema q (⟨field, value, op, fmt⟩ :: rest) =
        .error (.unsupportedFilterType "Field does not exist")) := by
  have hmf : map_fields custom schema field = .error .fieldDoesNotExist := by
    rcases hF : filtersMapGet field with s | v
    · have hsf := filtersMapGet_fld field s hF
      subst hsf
      simp [map_fields, hF, customTruthy, hc, schemaGetFieldName, hs]
    · simp [map_fields, hF, schemaGetFieldName]
  have hinit : filterInit custom schema field =
      .error (.unsupportedFilterType "Field does not exist") := by
    simp [filterInit, hmf]
  exact ⟨hinit, fun ap value op fmt q rest => by simp [filterMultiple, hinit]⟩

/-- Witness for C7: one-field schema, empty custom table, unknown field
name "missing". -/
theorem claim_C7_witness :
    filterInit [] ⟨[("age", "IntegerField")]⟩ "missing" =
      .error (.unsupportedFilterType "Field does not exist") ∧
    filterMultiple (fun _ _ _ _ q => .ok q) [] ⟨[("age", "IntegerField")]⟩
      QS.base [⟨"missing", .str "x", "eq", Option.none⟩] =
      .error (.unsupportedFilterType "Field does not exist") :=
  ⟨(claim_C7 [] ⟨[("age", "IntegerField")]⟩ "missing" rfl rfl).1,
   (claim_C7 [] ⟨[("age", "IntegerField")]⟩ "missing" rfl rfl).2
     (fun _ _ _ _ q => .ok q) (.str "x") "eq" Option.none QS.base []⟩

/-- The `__iexact` lookup only sees the value through its lower-cased
form. -/
theorem iexact_val_congr (s₁ s₂ : String) (h : lowerStr s₁ = lowerStr s₂)
    (stored : PyVal) :
    Lookup.eval .iexact stored (.str s₁) =
      Lookup.eval .iexact stored (.str s₂) := by
  cases stored with
  | str a =>
    show (lowerStr a == lowerStr s₁) = (lowerStr a == lowerStr s₂)
    rw [h]
  | int n => rfl
  | bool b => rfl
  | list xs => rfl
  | none => rfl
  | datetime d => rfl

/-- The `__icontains` lookup only sees the value through its lower-cased
form. -/
theorem icontains_val_congr (s₁ s₂ : String) (h : lowerStr s₁ = lowerStr s₂)
    (stored : PyVal) :
    Lookup.eval .icontains stored (.str s₁) =
      Lookup.eval .icontains stored (.str s₂) := by
  cases stored with
  | str a =>
    show isSubList (lowerStr s₁).data (lowerStr a).data =
      isSubList (lowerStr s₂).data (lowerStr a).data
    rw [h]
  | int n => rfl
  | bool b => rfl
  | list xs => rfl
  | none => rfl
  | datetime d => rfl

/-- The `__istartswith` lookup only sees the value through its lower-cased
form. -/
theorem istartswith_val_congr (s₁ s₂ : String) (h : lowerStr s₁ = lowerStr s₂)
    (stored : PyVal) :
    Lookup.eval .istartswith stored (.str s₁) =
      Lookup.eval .istartswith stored (.str s₂) := by
  cases stored with
  | str a =>
    show (lowerStr s₁).data.isPrefixOf (lowerStr a).data =
      (lowerStr s₂).data.isPrefixOf (lowerStr a).data
    rw [h]
  | int n => rfl
  | bool b => rfl
  | list xs => rfl
  | none => rfl
  | datetime d => rfl

/-- The `__iendswith` lookup only sees the value through its lower-cased
form. -/
theorem iendswith_val_congr (s₁ s₂ : String) (h : lowerStr s₁ = lowerStr s₂)
    (stored : PyVal) :
    Lookup.eval .iendswith stored (.str s₁) =
      Lookup.eval .iendswith stored (.str s₂) := by
  cases stored with
  | str a =>
    show (lowerStr s₁).data.isSuffixOf (lowerStr a).data =
      (lowerStr s₂).data.isSuffixOf (lowerStr a).data
    rw [h]
  | int n => rfl
  | bool b => rfl
  | list xs => rfl
  | none => rfl
  | datetime d => rfl

/-- `[v.lower() for v in value]` on a list of strings lower-cases each
member and cannot raise. -/
theorem mapExcept_strLower (l : List String) :
    mapExcept strLower (l.map PyVal.str) =
      .ok (l.map (fun s => PyVal.str (lowerStr s))) := by
  induction l with
  | nil => rfl
  | cons a t ih => simp [mapExcept, strLower, ih]

/-- `FilterCharField._in` on a list of strings, in closed form. -/
theorem inOp_list (f : String) (l : List String) (q : QS) :
    CharF.inOp f (.list (l.map PyVal.str)) q =
      .ok (.filter
        (.cnd "lower" .isin (.list (l.map (fun s => PyVal.str (lowerStr s)))))
        (.annotate "lower" (.lowerOf f) q)) := by
  simp [CharF.inOp, mapExcept_strLower]

/-- C5: the character/text filter's equals, not-equals, contains,
does-not-contain, starts-with and ends-with handlers give the same result
set for two values that agree after lower-casing, and the in-set handler
builds the same queryset for two string lists that agree after
lower-casing: matching is case-insensitive. -/
theorem claim_C5 (field : String) (s₁ s₂ : String) (q : QS)
    (recs : List Rcd) (h : lowerStr s₁ = lowerStr s₂) :
    QS.run (CharF.eq field (.str s₁) q) recs =
      QS.run (CharF.eq field (.str s₂) q) recs ∧
    QS.run (CharF.notOp field (.str s₁) q) recs =
      QS.run (CharF.notOp field (.str s₂) q) recs ∧
    QS.run (CharF.contains field (.str s₁) q) recs =
      QS.run (CharF.contains field (.str s₂) q) recs ∧
    QS.run (CharF.does_not_contain field (.str s₁) q) recs =
      QS.run (CharF.does_not_contain field (.str s₂) q) recs ∧
    QS.run (CharF.starts_with field (.str s₁) q) recs =
      QS.run (CharF.starts_with field (.str s₂) q) recs ∧
    QS.run (CharF.ends_with field (.str s₁) q) recs =
      QS.run (CharF.ends_with field (.str s₂) q) recs ∧
    (∀ l₁ l₂ : List String, l₁.map lowerStr = l₂.map lowerStr →
      CharF.inOp field (.list (l₁.map PyVal.str)) q =
        CharF.inOp field (.list (l₂.map PyVal.str)) q) := by
  refine ⟨?_, ?_, ?_, ?_, ?_, ?_, ?_⟩
  · exact run_filter_congr _ _ _ _
      (fun r => iexact_val_congr s₁ s₂ h (recGet r field))
  · exact run_exclude_congr _ _ _ _
      (fun r => iexact_val_congr s₁ s₂ h (recGet r field))
  · exact run_filter_congr _ _ _ _
      (fun r => icontains_val_congr s₁ s₂ h (recGet r field))
  · exact run_exclude_congr _ _ _ _
      (fun r => icontains_val_congr s₁ s₂ h (recGet r field))
  · exact run_filter_congr _ _ _ _
      (fun r => istartswith_val_congr s₁ s₂ h (recGet r field))
  · exact run_filter_congr _ _ _ _
      (fun r => iendswith_val_congr s₁ s₂ h (recGet r field))
  · intro l₁ l₂ hl
    have hm : l₁.map (fun s => PyVal.str (lowerStr s)) =
        l₂.map (fun s => PyVal.str (lowerStr s)) := by
      have e1 : l₁.map (fun s => PyVal.str (lowerStr s)) =
          (l₁.map lowerStr).map PyVal.str := (List.map_map _ _ _).symm
      have e2 : l₂.map (fun s => PyVal.str (lowerStr s)) =
          (l₂.map lowerStr).map PyVal.str := (List.map_map _ _ _).symm
      rw [e1, e2, hl]
    rw [inOp_list, inOp_list, hm]

/-- Witness for C5: "Bob" and "bob" filter a one-record table the same way,
and in-set on ["Bob"] and ["bob"] builds the same queryset. -/
theorem claim_C5_witness :
    QS.run (CharF.eq "name" (.str "Bob") .base) [[("name", .str "BOB")]] =
      QS.run (CharF.eq "name" (.str "bob") .base) [[("name", .str "BOB")]] ∧
    CharF.inOp "name" (.list (["Bob"].map PyVal.str)) QS.base =
      CharF.inOp "name" (.list (["bob"].map PyVal.str)) QS.base :=
  ⟨(claim_C5 "name" "Bob" "bob" .base [[("name", .str "BOB")]] rfl).1,
   (claim_C5 "name" "Bob" "bob" .base [[("name", .str "BOB")]] rfl).2.2.2.2.2.2
     ["Bob"] ["bob"] rfl⟩

/-- Every successful dispatch through the `AbstractFilter` handler table
adds exactly one `filter` or `exclude` step, with a condition on the field
name it was handed. -/
theorem base_callMethod_shape (v : Variant) (hv : handlersOf v = baseHandlers)
    (name f : String) (x : PyVal) (q q' : QS)
    (h : callMethod v name f x q = .ok q') :
    ∃ lk val, q' = .filter (.cnd f lk val) q ∨
      q' = .exclude (.cnd f lk val) q := by
  unfold callMethod getHandler at h
  rw [hv] at h
  rcases hf : baseHandlers.find? (fun p => p.1 == name) with _ | p
  · rw [hf] at h
    simp only [Option.map_none'] at h
    split at h <;> exact Except.noConfusion h
  · rw [hf] at h
    simp only [Option.map_some'] at h
    have hp : p ∈ baseHandlers := List.mem_of_find?_eq_some hf
    simp [baseHandlers] at hp
    rcases hp with rfl | rfl | rfl | rfl | rfl | rfl | rfl | rfl | rfl <;>
    · simp only [wrap] at h
      injection h with h2
      subst h2
      first
        | exact ⟨_, _, Or.inl rfl⟩
        | exact ⟨_, _, Or.inr rfl⟩

/-- C8: every successful `query_filter` call on the date (resp. date-time)
filter returns the incoming queryset annotated exactly once with `df`, the
stored field cast to date (resp. date-time), below a single handler step
whose condition targets the annotated name `df`, not the raw stored
field. -/
theorem claim_C8 (field : String) (value : PyVal) (op : String)
    (fmt : Option String) (q : QS) :
    (∀ q', query_filter .datefield field value op fmt q = .ok q' →
      ∃ lk val,
        q' = .filter (.cnd "df" lk val) (.annotate "df" (.castDate field) q) ∨
        q' = .exclude (.cnd "df" lk val) (.annotate "df" (.castDate field) q)) ∧
    (∀ q', query_filter .datetimefield field value op fmt q = .ok q' →
      ∃ lk val,
        q' = .filter (.cnd "df" lk val) (.annotate "df" (.castDateTime field) q) ∨
        q' = .exclude (.cnd "df" lk val) (.annotate "df" (.castDateTime field) q)) := by
  constructor
  · intro q' h
    simp only [query_filter, queryFilterDate] at h
    split at h
    · exact Except.noConfusion h
    · exact base_callMethod_shape .datefield rfl _ _ _ _ _ h
  · intro q' h
    simp only [query_filter, queryFilterDate] at h
    split at h
    · exact Except.noConfusion h
    · exact base_callMethod_shape .datetimefield rfl _ _ _ _ _ h

/-- Witness for C8: `onOrAfter` on a parseable date value annotates and
compares on `df` for both date variants. -/
theorem claim_C8_witness :
    (∃ lk val,
      QS.filter (.cnd "df" .gte (.datetime ⟨2024, 3, 5, 0, 0, 0, 0⟩))
          (.annotate "df" (.castDate "created") .base) =
        QS.filter (.cnd "df" lk val)
          (.annotate "df" (.castDate "created") QS.base) ∨
      QS.filter (.cnd "df" .gte (.datetime ⟨2024, 3, 5, 0, 0, 0, 0⟩))
          (.annotate "df" (.castDate "created") .base) =
        QS.exclude (.cnd "df" lk val)
          (.annotate "df" (.castDate "created") QS.base)) ∧
    (∃ lk val,
      QS.filter (.cnd "df" .gte (.datetime ⟨2024, 3, 5, 0, 0, 0, 0⟩))
          (.annotate "df" (.castDateTime "created") .base) =
        QS.filter (.cnd "df" lk val)
          (.annotate "df" (.castDateTime "created") QS.base) ∨
      QS.filter (.cnd "df" .gte (.datetime ⟨2024, 3, 5, 0, 0, 0, 0⟩))
          (.annotate "df" (.castDateTime "created") .base) =
        QS.exclude (.cnd "df" lk val)
          (.annotate "df" (.castDateTime "created") QS.base)) :=
  ⟨(claim_C8 "created" (.str "2024-03-05T00:00:00.000000Z") "onOrAfter"
      Option.none QS.base).1 _ rfl,
   (claim_C8 "created" (.str "2024-03-05T00:00:00.000000Z") "onOrAfter"
      Option.none QS.base).2 _ rfl⟩

/-- C10: `FilterTextField` subclasses `FilterCharField` with an empty body,
so its cast, operator resolution and `query_filter` coincide with the char
filter's on every input. -/
theorem claim_C10 (field : String) (value : PyVal) (op : String)
    (fmtS : String) (fmt : Option String) (q : QS) :
    castValue .textfield value fmtS = castValue .charfield value fmtS ∧
    map_operator .textfield op = map_operator .charfield op ∧
    query_filter .textfield field value op fmt q =
      query_filter .charfield field value op fmt q :=
  ⟨rfl, rfl, rfl⟩

end FilterSpec
